import Mathlib

/-!
Shallow embedding of `src/carousel.js` (class `FeaturedWorkCarousel`), the
single source file of the repository: a featured-work carousel with slide
navigation (click + keyboard), per-slide decorative visualizations
(3D-renderer-backed or 2D-canvas fallback), sample data generation, and a
`destroy` cleanup method.

Modelling conventions:
- JS numbers that stay integral are modelled as `Int`; the value `NaN`
  (which arises from `x % 0`) is modelled as `none` in `Option Int`.
  JS `%` is the truncating remainder, modelled by `Int.tmod`, and `x % 0`
  is `NaN`, modelled by `none`.
- The DOM slide collection is modelled by the list of the slides' active
  flags (`classList` containing `active` or not), in document order.
- `Math.random()` draws are modelled by an oracle `rand : ℕ → R` giving the
  successive draws; the code consumes 7 draws per generated point, in
  source order (radius, height, x-jitter, z-jitter, r, g, b).
- `Math.cos`, `Math.sin`, `Math.PI` are abstracted into a `MathEnv`
  parameter, since the claims under verification do not depend on their
  values; the field `R` is kept abstract (instantiated at `ℚ` in witnesses).
- The browser's animation-frame and resize-listener registries are modelled
  explicitly (`BrowserEnv`) for the `destroy` claims.
-/

/-- Rendering strategy chosen by `initScatterplots` (carousel.js:100-105):
`createScatterplot` when the global `THREE` is available, otherwise
`createCanvasPlaceholder`. -/
inductive PlotKind where
  | scatterplot : PlotKind
  | canvasPlaceholder : PlotKind
deriving DecidableEq, Repr

/-- State of a `FeaturedWorkCarousel` instance (carousel.js:25-34):
`currentSlide` (a JS number, `none` modelling `NaN`), the slide
collection's active flags, and the `scatterplots` map (as an association
list keyed by slide ordinal). -/
structure Carousel where
  currentSlide : Option Int
  slides : List Bool
  scatterplots : List (Nat × PlotKind)
deriving DecidableEq, Repr

/-- JS addition of a number to `currentSlide`; `NaN + k = NaN`. -/
def jsAdd (a : Option Int) (k : Int) : Option Int :=
  a.map (fun x => x + k)

/-- JS `a % n` for integral `a` and natural `n`: truncating remainder
(`Int.tmod`), with `x % 0 = NaN` and `NaN % n = NaN`. -/
def jsMod (a : Option Int) (n : Nat) : Option Int :=
  match a with
  | none => none
  | some x => if n = 0 then none else some (x.tmod (n : Int))

/-- `updateSlides` (carousel.js:84-92): for each index, the slide's
`active` class is present exactly when `index === this.currentSlide`
(strict equality against `NaN` is false, modelled by `Option` equality). -/
def updateSlides (c : Carousel) : Carousel :=
  let newSlides :=
    List.map (fun (i : Nat) => decide (c.currentSlide = some (i : Int)))
      (List.range c.slides.length)
  { c with slides := newSlides }

/-- `nextSlide` (carousel.js:74-77):
`this.currentSlide = (this.currentSlide + 1) % this.slides.length`,
then `updateSlides`. -/
def nextSlide (c : Carousel) : Carousel :=
  updateSlides
    { c with currentSlide := jsMod (jsAdd c.currentSlide 1) c.slides.length }

/-- `prevSlide` (carousel.js:79-82):
`this.currentSlide = (this.currentSlide - 1 + this.slides.length) % this.slides.length`,
then `updateSlides`. -/
def prevSlide (c : Carousel) : Carousel :=
  let v :=
    jsMod (jsAdd (jsAdd c.currentSlide (-1)) (c.slides.length : Int))
      c.slides.length
  updateSlides { c with currentSlide := v }

/-- One advance call: `true` is a `nextSlide` call (direction +1), `false`
a `prevSlide` call (direction -1). -/
def stepDir (d : Bool) (c : Carousel) : Carousel :=
  if d then nextSlide c else prevSlide c

/-- A finite sequence of advance calls, applied in order. -/
def steps (ds : List Bool) (c : Carousel) : Carousel :=
  ds.foldl (fun acc d => stepDir d acc) c

/-- Direction contributed by one advance call: +1 for next, -1 for prev. -/
def dirOf (d : Bool) : Int :=
  if d then 1 else -1

/-- Sum of the directions of a sequence of advance calls. -/
def dirSum (ds : List Bool) : Int :=
  (ds.map dirOf).sum

/-- The active-flag list produced by `updateSlides` for a given slide count
and current index. -/
def flagsFor (n : Nat) (cur : Option Int) : List Bool :=
  List.map (fun (i : Nat) => decide (cur = some (i : Int))) (List.range n)

/-- Number of slides whose `active` flag is set. -/
def countActive (c : Carousel) : Nat :=
  c.slides.countP id

/-- The keyboard handler bound by `init` (carousel.js:44-50): left arrow
runs `prevSlide`, right arrow runs `nextSlide`, anything else is ignored. -/
def keyboardHandler (key : String) (c : Carousel) : Carousel :=
  if key = "ArrowLeft" then prevSlide c
  else if key = "ArrowRight" then nextSlide c
  else c

/-- The click listener installed on the previous control (carousel.js:39). -/
def prevBtnClick (c : Carousel) : Carousel :=
  prevSlide c

/-- The click listener installed on the next control (carousel.js:40). -/
def nextBtnClick (c : Carousel) : Carousel :=
  nextSlide c

/-- Which listeners the binding phase of `init` installs
(carousel.js:36-55): the two click listeners are added only inside
`if (this.prevBtn && this.nextBtn)`, the keyboard handler is always
added. `prevBtn`/`nextBtn` model the truthiness of the two
`querySelector` results. -/
structure Bindings where
  prevClickBound : Bool
  nextClickBound : Bool
  keyboardBound : Bool
deriving DecidableEq, Repr

/-- Binding phase of `init` (carousel.js:36-55). -/
def initBindings (prevBtn nextBtn : Bool) : Bindings :=
  { prevClickBound := prevBtn && nextBtn
  , nextClickBound := prevBtn && nextBtn
  , keyboardBound := true }

/-- `initScatterplots` (carousel.js:94-108): for each slide ordinal 1..3,
if the container element `scatterplot-container-i` is present, an entry
keyed by the ordinal is created, with `createScatterplot` when the global
`THREE` is available and `createCanvasPlaceholder` otherwise; absent
containers are skipped. -/
def initScatterplots (containerPresent : Nat → Bool) (threeAvailable : Bool) :
    List (Nat × PlotKind) :=
  List.map
    (fun i => (i, if threeAvailable then PlotKind.scatterplot
                  else PlotKind.canvasPlaceholder))
    (List.filter (fun i => containerPresent i) [1, 2, 3])

/-- Render state touched by `createScatterplot`'s `handleResize`
(carousel.js:281-288): the camera aspect ratio and the renderer size. -/
structure ScatterplotView where
  aspect : ℚ
  rendererWidth : Nat
  rendererHeight : Nat
deriving DecidableEq, Repr

/-- `handleResize` of the 3D strategy (carousel.js:281-287), guarded by
`container.clientWidth > 0 && container.clientHeight > 0`. -/
def scatterplotHandleResize (cw ch : Nat) (v : ScatterplotView) :
    ScatterplotView :=
  if 0 < cw ∧ 0 < ch then
    ScatterplotView.mk ((cw : ℚ) / (ch : ℚ)) cw ch
  else v

/-- Canvas pixel size touched by `createCanvasPlaceholder`'s
`handleResize` (carousel.js:191-194). -/
structure PlaceholderCanvas where
  width : Nat
  height : Nat
deriving DecidableEq, Repr

/-- `handleResize` of the 2D fallback (carousel.js:191-194): sets the
canvas pixel size to the container's dimensions, with no zero guard. -/
def placeholderHandleResize (cw ch : Nat) (cv : PlaceholderCanvas) :
    PlaceholderCanvas :=
  PlaceholderCanvas.mk cw ch

/-- RGB color of a generated point (carousel.js:344-348). -/
structure PointColor (R : Type) where
  r : R
  g : R
  b : R

/-- A generated sample point (carousel.js:340-351). -/
structure DataPoint (R : Type) where
  x : R
  y : R
  z : R
  color : PointColor R
  imageUrl : String

/-- Abstraction of the `Math` trig functions and `Math.PI` used by
`generateSampleData`; the claims under verification do not depend on
their values, so they are kept as parameters over the number field. -/
structure MathEnv (R : Type) where
  cos : R → R
  sin : R → R
  pi : R

/-- `numPoints` (carousel.js:333): `50 + slideNumber * 20`. -/
def numPoints (slideNumber : Nat) : Nat :=
  50 + slideNumber * 20

/-- Ring radius before jitter for loop index `i` (carousel.js:337):
`1 + Math.random() * 2`. The oracle `rand` gives the successive
`Math.random()` draws; each loop iteration consumes 7 draws in source
order (radius, height, x-jitter, z-jitter, r, g, b), so iteration `i`
uses draws `7*i` to `7*i+6`. -/
def ringRadius (R : Type) [LinearOrderedField R] (rand : Nat → R)
    (i : Nat) : R :=
  1 + rand (7 * i) * 2

/-- The point pushed for loop index `i` of `numPoints` total
(carousel.js:335-352). -/
def samplePoint (R : Type) [LinearOrderedField R] (m : MathEnv R)
    (rand : Nat → R) (slideNumber i n : Nat) : DataPoint R :=
  let angle : R := ((i : R) / (n : R)) * m.pi * 2
  let radius : R := ringRadius R rand i
  let height : R := (rand (7 * i + 1) - 0.5) * 2
  { x := m.cos angle * radius + (rand (7 * i + 2) - 0.5) * 0.5
  , y := height
  , z := m.sin angle * radius + (rand (7 * i + 3) - 0.5) * 0.5
  , color := PointColor.mk (0.3 + rand (7 * i + 4) * 0.7)
      (0.5 + rand (7 * i + 5) * 0.5) (0.8 + rand (7 * i + 6) * 0.2)
  , imageUrl := "image-" ++ toString slideNumber ++ "-" ++ toString i
      ++ ".jpg" }

/-- `generateSampleData` (carousel.js:329-355). -/
def generateSampleData (R : Type) [LinearOrderedField R] (m : MathEnv R)
    (rand : Nat → R) (slideNumber : Nat) : List (DataPoint R) :=
  List.map
    (fun i => samplePoint R m rand slideNumber i (numPoints slideNumber))
    (List.range (numPoints slideNumber))

/-- The browser-side registries relevant to `destroy` (carousel.js:57-72):
pending animation-frame request ids (fresh ids allocated in sequence) and
the window resize listeners currently registered (by handler id). -/
structure BrowserEnv where
  nextRequestId : Nat
  pendingRequests : List Nat
  resizeListeners : List Nat
deriving DecidableEq, Repr

/-- `requestAnimationFrame`: allocates a fresh request id and schedules
its callback. -/
def requestAnimFrame (env : BrowserEnv) : Nat × BrowserEnv :=
  (env.nextRequestId,
    BrowserEnv.mk (env.nextRequestId + 1)
      (env.pendingRequests ++ [env.nextRequestId]) env.resizeListeners)

/-- `cancelAnimationFrame`: removes a request id from the pending set, a
no-op when that id is no longer scheduled. -/
def cancelAnimFrame (id : Nat) (env : BrowserEnv) : BrowserEnv :=
  BrowserEnv.mk env.nextRequestId
    (env.pendingRequests.filter (fun x => x != id)) env.resizeListeners

/-- Per-plot state of `createCanvasPlaceholder` (carousel.js:110-202):
the returned object's `animationId` property (copied once by the object
literal at carousel.js:197-201), the closure-local `animationId` variable
reassigned by every `draw` frame (carousel.js:126 and 184), and the
retained `handleResize` listener id (carousel.js:191-195). -/
structure PlaceholderPlot where
  returnedAnimationId : Nat
  localAnimationId : Nat
  resizeHandlerId : Nat
deriving DecidableEq, Repr

/-- The effectful slice of `createCanvasPlaceholder`
(carousel.js:110-202): `draw()` runs once synchronously, scheduling the
first frame and setting the local `animationId` (carousel.js:184, 188);
the resize listener is registered (carousel.js:195); the returned object
copies the current value of `animationId` (carousel.js:199). -/
def createPlaceholderPlot (resizeHandlerId : Nat) (env : BrowserEnv) :
    PlaceholderPlot × BrowserEnv :=
  let res := requestAnimFrame env
  let env2 := BrowserEnv.mk res.2.nextRequestId res.2.pendingRequests
    (res.2.resizeListeners ++ [resizeHandlerId])
  (PlaceholderPlot.mk res.1 res.1 resizeHandlerId, env2)

/-- One animation frame firing for a placeholder plot: the browser
removes the fired request and invokes `draw`, which schedules the next
frame and reassigns only the closure-local `animationId`
(carousel.js:184), never the returned object's copy. -/
def fireFrame (p : PlaceholderPlot) (env : BrowserEnv) :
    PlaceholderPlot × BrowserEnv :=
  let env1 := BrowserEnv.mk env.nextRequestId
    (env.pendingRequests.filter (fun x => x != p.localAnimationId))
    env.resizeListeners
  let res := requestAnimFrame env1
  (PlaceholderPlot.mk p.returnedAnimationId res.1 p.resizeHandlerId, res.2)

/-- The slice of `destroy` (carousel.js:63-71) for one placeholder plot:
`cancelAnimationFrame(plot.animationId)` on the returned object's copy of
the id, then `window.removeEventListener` on the retained resize
handler. The truthiness guards `if (plot.animationId)` and
`if (plot.handleResize)` both pass here: browsers allocate animation
request ids from 1 upward (never 0, the falsy value), and `handleResize`
is always a function, so both branches are modelled as taken. -/
def destroyPlot (p : PlaceholderPlot) (env : BrowserEnv) : BrowserEnv :=
  let env1 := cancelAnimFrame p.returnedAnimationId env
  BrowserEnv.mk env1.nextRequestId env1.pendingRequests
    (env1.resizeListeners.filter (fun x => x != p.resizeHandlerId))

-- Helper lemmas about the navigation state machine.

theorem jsMod_some {x : Int} {n : Nat} (hn : n ≠ 0) :
    jsMod (some x) n = some (x.tmod (n : Int)) := by
  simp [jsMod, hn]

theorem tmod_coe_eq_emod (x : Int) (n : Nat) (hx : 0 ≤ x) :
    x.tmod (n : Int) = x % (n : Int) :=
  Int.tmod_eq_emod hx (by exact_mod_cast Nat.zero_le n)

theorem flagsFor_length (n : Nat) (cur : Option Int) :
    (flagsFor n cur).length = n := by
  rw [flagsFor, List.length_map, List.length_range]

/-- Characterization of a single advance call from a valid state. -/
theorem stepDir_spec (d : Bool) (c : Carousel) (m : Int)
    (hcur : c.currentSlide = some m) (h0 : 0 ≤ m)
    (hm : m < (c.slides.length : Int)) :
    (stepDir d c).currentSlide
        = some ((m + dirOf d) % (c.slides.length : Int)) ∧
    (stepDir d c).slides
        = flagsFor c.slides.length
            (some ((m + dirOf d) % (c.slides.length : Int))) ∧
    (stepDir d c).scatterplots = c.scatterplots := by
  have hNpos : 0 < (c.slides.length : Int) := lt_of_le_of_lt h0 hm
  have hN0 : c.slides.length ≠ 0 := by
    intro h
    rw [h] at hNpos
    exact lt_irrefl 0 (by exact_mod_cast hNpos)
  cases d with
  | true =>
    have hval : jsMod (jsAdd c.currentSlide 1) c.slides.length
        = some ((m + 1) % (c.slides.length : Int)) := by
      rw [hcur]
      show jsMod (some (m + 1)) c.slides.length = _
      rw [jsMod_some hN0, tmod_coe_eq_emod _ _ (by omega)]
    refine ⟨?_, ?_, ?_⟩ <;>
      simp [stepDir, nextSlide, updateSlides, hval, dirOf, flagsFor]
  | false =>
    have hval : jsMod (jsAdd (jsAdd c.currentSlide (-1))
          (c.slides.length : Int)) c.slides.length
        = some ((m + -1) % (c.slides.length : Int)) := by
      rw [hcur]
      show jsMod (some (m + -1 + (c.slides.length : Int)))
            c.slides.length = _
      rw [jsMod_some hN0, tmod_coe_eq_emod _ _ (by omega)]
      rw [Int.add_emod_self]
    refine ⟨?_, ?_, ?_⟩ <;>
      simp [stepDir, prevSlide, updateSlides, hval, dirOf, flagsFor]

/-- Characterization of a sequence of advance calls from a valid state:
the current index follows the modular formula, the slide count and the
scatterplot map are preserved, and after at least one call the active
flags are those of the current index. -/
theorem steps_spec (ds : List Bool) (c : Carousel) (m : Int)
    (hcur : c.currentSlide = some m) (h0 : 0 ≤ m)
    (hm : m < (c.slides.length : Int)) :
    (steps ds c).currentSlide
        = some ((m + dirSum ds) % (c.slides.length : Int)) ∧
    (steps ds c).slides.length = c.slides.length ∧
    (steps ds c).scatterplots = c.scatterplots ∧
    (ds ≠ [] →
      (steps ds c).slides
        = flagsFor c.slides.length
            (some ((m + dirSum ds) % (c.slides.length : Int)))) := by
  induction ds generalizing c m with
  | nil =>
    refine ⟨?_, rfl, rfl, fun h => absurd rfl h⟩
    rw [steps, List.foldl_nil, hcur, dirSum]
    simp only [List.map_nil, List.sum_nil, add_zero]
    rw [Int.emod_eq_of_lt h0 hm]
  | cons d ds ih =>
    have hNpos : 0 < (c.slides.length : Int) := lt_of_le_of_lt h0 hm
    obtain ⟨hcur1, hsl1, hsc1⟩ := stepDir_spec d c m hcur h0 hm
    have hlen1 : (stepDir d c).slides.length = c.slides.length := by
      rw [hsl1, flagsFor_length]
    have hstep : steps (d :: ds) c = steps ds (stepDir d c) := by
      simp [steps]
    have h0' : 0 ≤ (m + dirOf d) % (c.slides.length : Int) :=
      Int.emod_nonneg _ (by omega)
    have hm' : (m + dirOf d) % (c.slides.length : Int)
        < (c.slides.length : Int) := Int.emod_lt_of_pos _ hNpos
    obtain ⟨ih1, ih2, ih3, ih4⟩ :=
      ih (stepDir d c) ((m + dirOf d) % (c.slides.length : Int))
        hcur1 h0' (by rw [hlen1]; exact hm')
    have hfold : ((m + dirOf d) % (c.slides.length : Int) + dirSum ds)
          % (c.slides.length : Int)
        = (m + dirSum (d :: ds)) % (c.slides.length : Int) := by
      rw [Int.emod_add_emod]
      have : dirSum (d :: ds) = dirOf d + dirSum ds := by
        simp [dirSum]
      rw [this, add_assoc]
    refine ⟨?_, ?_, ?_, ?_⟩
    · rw [hstep, ih1, hlen1, hfold]
    · rw [hstep, ih2, hlen1]
    · rw [hstep, ih3, hsc1]
    · intro _
      rw [hstep]
      cases ds with
      | nil =>
        rw [steps, List.foldl_nil, hsl1]
        have hd : dirSum [d] = dirOf d := by simp [dirSum, dirOf]
        rw [hd]
      | cons e es =>
        rw [ih4 (by simp), hlen1, hfold]

/-- Counting a single hit in an initial segment of the naturals. -/
theorem countP_decide_range (a : Nat) :
    forall n : Nat, a < n ->
      List.countP (fun (i : Nat) => decide (a = i)) (List.range n) = 1 := by
  intro n
  induction n with
  | zero => omega
  | succ k ih =>
    intro h
    rw [List.range_succ, List.countP_append]
    by_cases hk : a < k
    · rw [ih hk]
      have hz : List.countP (fun (i : Nat) => decide (a = i)) [k] = 0 := by
        rw [List.countP_eq_zero]
        intro x hx
        simp only [List.mem_singleton] at hx
        subst hx
        simp only [decide_eq_true_eq]
        omega
      omega
    · have hak : a = k := by omega
      subst hak
      have hz : List.countP (fun (i : Nat) => decide (a = i))
          (List.range a) = 0 := by
        rw [List.countP_eq_zero]
        intro x hx
        simp only [List.mem_range] at hx
        simp only [decide_eq_true_eq]
        omega
      rw [hz]
      simp

/-- The flag list for a valid in-range index has exactly one set flag. -/
theorem countP_flagsFor (n : Nat) (r : Int) (h0 : 0 ≤ r) (hn : r < (n : Int)) :
    (flagsFor n (some r)).countP id = 1 := by
  obtain ⟨a, rfl⟩ : ∃ a : Nat, r = (a : Int) :=
    ⟨r.toNat, (Int.toNat_of_nonneg h0).symm⟩
  have ha : a < n := by exact_mod_cast hn
  rw [flagsFor, List.countP_map]
  have hq : List.countP
      (id ∘ fun (i : Nat) => decide (some ((a : Nat) : Int) = some (i : Int)))
      (List.range n)
      = List.countP (fun (i : Nat) => decide (a = i)) (List.range n) := by
    refine List.countP_congr (fun x _ => ?_)
    simp [Int.natCast_inj, eq_comm]
  rw [hq]
  exact countP_decide_range a n ha

-- Claim theorems for the navigation state machine.

/-- C1: for every slide collection of size N ≥ 1 and every finite sequence
of advance calls (`nextSlide` contributing +1, `prevSlide` contributing
-1), after each call the active slide index equals
((initial + sum of directions) mod N), wrapping correctly in both
directions including for negative sums. -/
theorem C1_advance_mod_formula (ds : List Bool) (c : Carousel) (m : Int)
    (hcur : c.currentSlide = some m) (h0 : 0 ≤ m)
    (hm : m < (c.slides.length : Int)) :
    (steps ds c).currentSlide
        = some ((m + dirSum ds) % (c.slides.length : Int)) ∧
    (ds ≠ [] →
      (steps ds c).slides
        = flagsFor c.slides.length
            (some ((m + dirSum ds) % (c.slides.length : Int)))) := by
  obtain ⟨h1, _, _, h4⟩ := steps_spec ds c m hcur h0 hm
  exact ⟨h1, h4⟩

/-- Witness for C1: three slides starting at index 0, one `prevSlide`
call; the index wraps to (0 - 1) mod 3 = 2. -/
theorem C1_witness :
    (Carousel.mk (some 0) [true, false, false] []).currentSlide = some 0 ∧
    (0 : Int) ≤ 0 ∧
    (0 : Int) < (((Carousel.mk (some 0) [true, false, false] []).slides.length : Nat) : Int) ∧
    ((steps [false] (Carousel.mk (some 0) [true, false, false] [])).currentSlide
        = some ((0 + dirSum [false])
            % (((Carousel.mk (some 0) [true, false, false] []).slides.length : Nat) : Int))) :=
  ⟨rfl, by decide, by decide,
    (C1_advance_mod_formula [false] (Carousel.mk (some 0) [true, false, false] [])
      0 rfl (by decide) (by decide)).1⟩

/-- C2: for every slide collection of size N ≥ 1, after every completed
advance call (`nextSlide` or `prevSlide`, which both invoke
`updateSlides`), exactly one slide carries the active flag; this holds
after every call in any sequence of navigation operations. -/
theorem C2_exactly_one_active (ds : List Bool) (c : Carousel) (m : Int)
    (hcur : c.currentSlide = some m) (h0 : 0 ≤ m)
    (hm : m < (c.slides.length : Int)) (hne : ds ≠ []) :
    countActive (steps ds c) = 1 := by
  have hNpos : 0 < (c.slides.length : Int) := lt_of_le_of_lt h0 hm
  obtain ⟨_, _, _, h4⟩ := steps_spec ds c m hcur h0 hm
  rw [countActive, h4 hne]
  exact countP_flagsFor c.slides.length _
    (Int.emod_nonneg _ (by omega)) (Int.emod_lt_of_pos _ hNpos)

/-- Witness for C2: three slides starting at index 0, two `nextSlide`
calls; exactly one slide is active afterwards. -/
theorem C2_witness :
    (Carousel.mk (some 0) [true, false, false] []).currentSlide = some 0 ∧
    ([true, true] : List Bool) ≠ [] ∧
    countActive (steps [true, true]
      (Carousel.mk (some 0) [true, false, false] [])) = 1 :=
  ⟨rfl, by decide,
    C2_exactly_one_active [true, true]
      (Carousel.mk (some 0) [true, false, false] []) 0 rfl
      (by decide) (by decide) (by decide)⟩

/-- C10: if the slide collection is empty (N = 0), calling `nextSlide` or
`prevSlide` sets the current slide index to NaN (modulo by zero, modelled
by `none`), an ill-defined index, rather than leaving the index unchanged
or raising an error; no slide's active flag changes (the collection is
empty before and after). -/
theorem C10_empty_collection_nan (c : Carousel) (h : c.slides = []) :
    (nextSlide c).currentSlide = none ∧ (nextSlide c).slides = [] ∧
    (prevSlide c).currentSlide = none ∧ (prevSlide c).slides = [] := by
  cases hcur : c.currentSlide <;>
    simp [nextSlide, prevSlide, updateSlides, jsMod, jsAdd, h, hcur]

/-- Witness for C10: a carousel at index 0 with no slides. -/
theorem C10_witness :
    (Carousel.mk (some 0) [] []).slides = [] ∧
    ((nextSlide (Carousel.mk (some 0) [] [])).currentSlide = none ∧
     (nextSlide (Carousel.mk (some 0) [] [])).slides = [] ∧
     (prevSlide (Carousel.mk (some 0) [] [])).currentSlide = none ∧
     (prevSlide (Carousel.mk (some 0) [] [])).slides = []) :=
  ⟨rfl, C10_empty_collection_nan (Carousel.mk (some 0) [] []) rfl⟩

/-- C8: from any identical starting state, a left-arrow key-down event
produces exactly the same state transition (hence the same active-index
transition) as a click on the previous control, and a right-arrow
key-down event the same transition as a click on the next control: both
pairs invoke the same underlying advance operation. -/
theorem C8_keyboard_click_equivalence (c : Carousel) :
    keyboardHandler "ArrowLeft" c = prevBtnClick c ∧
    keyboardHandler "ArrowRight" c = nextBtnClick c := by
  constructor
  · rw [keyboardHandler, prevBtnClick, if_pos rfl]
  · rw [keyboardHandler, nextBtnClick, if_neg (by decide), if_pos rfl]

/-- C9: click bindings are installed only when both the previous and the
next control elements are present; if exactly one of the two controls
exists, neither control receives a click binding, while the keyboard
handler is still bound; the binding phase is total (no error). -/
theorem C9_click_bindings_both_or_none (p n : Bool) (h : p ≠ n) :
    (initBindings p n).prevClickBound = false ∧
    (initBindings p n).nextClickBound = false ∧
    (initBindings p n).keyboardBound = true ∧
    (∀ a b : Bool,
      ((initBindings a b).prevClickBound = true ↔ a = true ∧ b = true) ∧
      ((initBindings a b).nextClickBound = true ↔ a = true ∧ b = true)) := by
  refine ⟨?_, ?_, rfl, by decide⟩ <;>
    cases p <;> cases n <;> simp_all [initBindings]

/-- Witness for C9: only the previous control exists. -/
theorem C9_witness :
    (true ≠ false) ∧
    ((initBindings true false).prevClickBound = false ∧
     (initBindings true false).nextClickBound = false ∧
     (initBindings true false).keyboardBound = true ∧
     (∀ a b : Bool,
       ((initBindings a b).prevClickBound = true ↔ a = true ∧ b = true) ∧
       ((initBindings a b).nextClickBound = true ↔ a = true ∧ b = true))) :=
  ⟨by decide, C9_click_bindings_both_or_none true false (by decide)⟩

/-- C6: if the DOM container for a given slide ordinal is absent,
visualization creation for that slide is silently skipped: the
scatterplots map contains no entry for that ordinal, and advance
navigation continues to work correctly (the modular index formula) with
the scatterplots map untouched. -/
theorem C6_missing_container_skipped (containerPresent : Nat → Bool)
    (threeAvailable : Bool) (k : Nat) (hk : containerPresent k = false)
    (ds : List Bool) (c : Carousel) (m : Int)
    (hsc : c.scatterplots = initScatterplots containerPresent threeAvailable)
    (hcur : c.currentSlide = some m) (h0 : 0 ≤ m)
    (hm : m < (c.slides.length : Int)) :
    (∀ kind, (k, kind) ∉ c.scatterplots) ∧
    (steps ds c).scatterplots = c.scatterplots ∧
    (steps ds c).currentSlide
      = some ((m + dirSum ds) % (c.slides.length : Int)) := by
  obtain ⟨h1, _, h3, _⟩ := steps_spec ds c m hcur h0 hm
  refine ⟨?_, h3, h1⟩
  intro kind hmem
  rw [hsc, initScatterplots] at hmem
  simp only [List.mem_map, List.mem_filter] at hmem
  obtain ⟨i, ⟨_, hip⟩, hik⟩ := hmem
  have : i = k := (Prod.mk.injEq _ _ _ _).mp hik |>.1
  subst this
  rw [hk] at hip
  exact Bool.false_ne_true hip

/-- Witness for C6: container 2 is absent, `THREE` unavailable, three
slides starting at index 0, one `nextSlide` call. -/
theorem C6_witness :
    ((fun i => decide (i ≠ 2)) 2 = false) ∧
    (∀ kind, ((2 : Nat), kind) ∉
      (Carousel.mk (some 0) [true, false, false]
        (initScatterplots (fun i => decide (i ≠ 2)) false)).scatterplots) ∧
    (steps [true] (Carousel.mk (some 0) [true, false, false]
        (initScatterplots (fun i => decide (i ≠ 2)) false))).scatterplots
      = (Carousel.mk (some 0) [true, false, false]
        (initScatterplots (fun i => decide (i ≠ 2)) false)).scatterplots ∧
    (steps [true] (Carousel.mk (some 0) [true, false, false]
        (initScatterplots (fun i => decide (i ≠ 2)) false))).currentSlide
      = some ((0 + dirSum [true])
          % (((Carousel.mk (some 0) [true, false, false]
              (initScatterplots (fun i => decide (i ≠ 2)) false)).slides.length : Nat) : Int)) :=
  ⟨rfl,
    C6_missing_container_skipped (fun i => decide (i ≠ 2)) false 2 rfl
      [true] _ 0 rfl rfl (by decide) (by decide)⟩

/-- Counterexample to C7 as stated: under the 2D fallback strategy, a
resize event while the container width is zero is not a no-op — the
render surface dimensions change from 100x100 to 0x50. -/
theorem C7_counterexample :
    placeholderHandleResize 0 50 (PlaceholderCanvas.mk 100 100)
      ≠ PlaceholderCanvas.mk 100 100 := by
  decide

/-- C7 (amended): under the 3D strategy, handling a resize event while
the container's width or height is zero is a no-op, leaving the render
surface dimensions and the camera aspect state unchanged; under the 2D
fallback strategy, `handleResize` unconditionally copies the container
dimensions to the canvas, zero or not. -/
theorem C7_zero_resize (v : ScatterplotView) (cv : PlaceholderCanvas)
    (cw ch : Nat) (h : cw = 0 ∨ ch = 0) :
    scatterplotHandleResize cw ch v = v ∧
    placeholderHandleResize cw ch cv = PlaceholderCanvas.mk cw ch := by
  constructor
  · rw [scatterplotHandleResize, if_neg]
    intro hcontra
    omega
  · rfl

/-- Witness for C7 (amended): container resized to 0x50. -/
theorem C7_witness :
    ((0 : Nat) = 0 ∨ (50 : Nat) = 0) ∧
    (scatterplotHandleResize 0 50 (ScatterplotView.mk 2 100 100)
        = ScatterplotView.mk 2 100 100 ∧
      placeholderHandleResize 0 50 (PlaceholderCanvas.mk 100 100)
        = PlaceholderCanvas.mk 0 50) :=
  ⟨Or.inl rfl,
    C7_zero_resize (ScatterplotView.mk 2 100 100)
      (PlaceholderCanvas.mk 100 100) 0 50 (Or.inl rfl)⟩

/-- C4: for every slide ordinal `k`, `generateSampleData k` returns
exactly 50 + 20k points; the point count is deterministic in `k` (the
random oracle `rand` and the math environment are universally
quantified) even though positions and colors are randomized. -/
theorem C4_point_count (R : Type) [LinearOrderedField R] (m : MathEnv R)
    (rand : Nat → R) (k : Nat) :
    (generateSampleData R m rand k).length = 50 + 20 * k := by
  rw [generateSampleData, List.length_map, List.length_range, numPoints]
  ring

/-- C5: for every point produced by `generateSampleData`, for every
random draw in [0, 1): the red channel lies in [0.3, 1), the green
channel in [0.5, 1), the blue channel in [0.8, 1), the vertical (y)
coordinate in [-1, 1); and every ring radius before jitter lies in
[1, 3). -/
theorem C5_randomized_bands (R : Type) [LinearOrderedField R]
    (m : MathEnv R) (rand : Nat → R) (k : Nat)
    (h : ∀ j : Nat, 0 ≤ rand j ∧ rand j < 1) :
    (∀ p ∈ generateSampleData R m rand k,
      ((3 : R) / 10 ≤ p.color.r ∧ p.color.r < 1) ∧
      ((1 : R) / 2 ≤ p.color.g ∧ p.color.g < 1) ∧
      ((4 : R) / 5 ≤ p.color.b ∧ p.color.b < 1) ∧
      (-1 ≤ p.y ∧ p.y < 1)) ∧
    (∀ i : Nat, 1 ≤ ringRadius R rand i ∧ ringRadius R rand i < 3) := by
  constructor
  · intro p hp
    rw [generateSampleData] at hp
    simp only [List.mem_map, List.mem_range] at hp
    obtain ⟨i, _, rfl⟩ := hp
    obtain ⟨hr0, hr1⟩ := h (7 * i + 4)
    obtain ⟨hg0, hg1⟩ := h (7 * i + 5)
    obtain ⟨hb0, hb1⟩ := h (7 * i + 6)
    obtain ⟨hh0, hh1⟩ := h (7 * i + 1)
    refine ⟨⟨?_, ?_⟩, ⟨?_, ?_⟩, ⟨?_, ?_⟩, ⟨?_, ?_⟩⟩ <;>
      simp only [samplePoint] <;> norm_num <;> linarith
  · intro i
    obtain ⟨h0, h1⟩ := h (7 * i)
    constructor <;> rw [ringRadius] <;> linarith

/-- Witness for C5: the oracle constantly 1/2 over the rationals, with
identity trig functions and pi = 0, at slide ordinal 0. -/
theorem C5_witness :
    (∀ j : Nat, 0 ≤ (fun _ : Nat => (1 : ℚ) / 2) j ∧
      (fun _ : Nat => (1 : ℚ) / 2) j < 1) ∧
    ((∀ p ∈ generateSampleData ℚ
        (MathEnv.mk (fun x => x) (fun x => x) 0)
        (fun _ : Nat => (1 : ℚ) / 2) 0,
      ((3 : ℚ) / 10 ≤ p.color.r ∧ p.color.r < 1) ∧
      ((1 : ℚ) / 2 ≤ p.color.g ∧ p.color.g < 1) ∧
      ((4 : ℚ) / 5 ≤ p.color.b ∧ p.color.b < 1) ∧
      (-1 ≤ p.y ∧ p.y < 1)) ∧
    (∀ i : Nat, 1 ≤ ringRadius ℚ (fun _ : Nat => (1 : ℚ) / 2) i ∧
      ringRadius ℚ (fun _ : Nat => (1 : ℚ) / 2) i < 3)) :=
  ⟨fun _ => by norm_num,
    C5_randomized_bands ℚ (MathEnv.mk (fun x => x) (fun x => x) 0)
      (fun _ : Nat => (1 : ℚ) / 2) 0 (fun _ => by norm_num)⟩

/-- C3 fails on the code: construct a placeholder visualization (resize
handler id 100, fresh browser environment with request ids from 1), let
a single animation frame fire, then call `destroy`. The returned
object's `animationId` is the stale first request id (1), so
`cancelAnimationFrame` misses the pending request (id 2) scheduled by
the fired frame: one active animation callback survives `destroy`,
though the resize listener is removed. -/
theorem C3_destroy_leaves_pending_callback :
    (destroyPlot
        (fireFrame (createPlaceholderPlot 100 (BrowserEnv.mk 1 [] [])).1
          (createPlaceholderPlot 100 (BrowserEnv.mk 1 [] [])).2).1
        (fireFrame (createPlaceholderPlot 100 (BrowserEnv.mk 1 [] [])).1
          (createPlaceholderPlot 100 (BrowserEnv.mk 1 [] [])).2).2).pendingRequests
      = [2] ∧
    (destroyPlot
        (fireFrame (createPlaceholderPlot 100 (BrowserEnv.mk 1 [] [])).1
          (createPlaceholderPlot 100 (BrowserEnv.mk 1 [] [])).2).1
        (fireFrame (createPlaceholderPlot 100 (BrowserEnv.mk 1 [] [])).1
          (createPlaceholderPlot 100 (BrowserEnv.mk 1 [] [])).2).2).resizeListeners
      = [] := by
  decide

